import Mathlib

set_option maxHeartbeats 1000000

/-! Shallow embedding of the next-zod-route request pipeline
    (source: src/routeHandlerBuilder.ts).

    JavaScript runtime values are modelled by the inductive type Value; a
    zod schema is modelled by its safeParse capability; thrown values are
    modelled by JsError, whose constructor JsError.internal plays the role
    of the exported class InternalRouteHandlerError and whose constructor
    JsError.other covers every other thrown value.  Promise-based control
    flow is sequential in the source, so it is modelled by plain
    Except-valued functions. -/

/-- JSON-like runtime values flowing through the pipeline. -/
inductive Value where
  | null : Value
  | bool : Bool → Value
  | num : Int → Value
  | str : String → Value
  | arr : List Value → Value
  | obj : List (String × Value) → Value

/-- Escape one character the way JSON.stringify escapes characters in
    string literals (the cases needed here: quote, backslash, newline,
    tab, carriage return). -/
def escapeChar (c : Char) : String :=
  if c.toNat == 34 then "\\\"" else
  if c.toNat == 92 then "\\\\" else
  if c.toNat == 10 then "\\n" else
  if c.toNat == 9 then "\\t" else
  if c.toNat == 13 then "\\r" else String.singleton c

/-- Escape a whole string for inclusion in JSON output. -/
def escapeString (s : String) : String :=
  String.join (s.toList.map escapeChar)

mutual

/-- JSON.stringify on a Value, as used by the source at the points where
    it serializes validation errors and plain handler results. -/
def Value.stringify : Value → String
  | .null => "null"
  | .bool b => if b then "true" else "false"
  | .num n => toString n
  | .str s => "\"" ++ escapeString s ++ "\""
  | .arr xs => "[" ++ stringifyElems xs ++ "]"
  | .obj fs => "\x7b" ++ stringifyFields fs ++ "\x7d"

/-- Comma-separated serialization of array elements. -/
def stringifyElems : List Value → String
  | [] => ""
  | [v] => Value.stringify v
  | v :: rest => Value.stringify v ++ "," ++ stringifyElems rest

/-- Comma-separated serialization of object fields. -/
def stringifyFields : List (String × Value) → String
  | [] => ""
  | [p] => "\"" ++ escapeString p.1 ++ "\":" ++ Value.stringify p.2
  | p :: rest =>
      "\"" ++ escapeString p.1 ++ "\":" ++ Value.stringify p.2 ++ "," ++ stringifyFields rest

end

/-- A JavaScript object value seen as an ordered field list. -/
abbrev Obj := List (String × Value)

/-- Assignment of a property on an object: an existing key keeps its
    position and receives the new value, a fresh key is appended.  This is
    the single-property step of both Object.fromEntries and object
    spread. -/
def setKey (o : Obj) (k : String) (v : Value) : Obj :=
  if o.any (fun p => p.1 == k) then
    o.map (fun p => if p.1 == k then (k, v) else p)
  else o ++ [(k, v)]

/-- Object.fromEntries over a list of entries: later entries win. -/
def fromEntries (l : List (String × Value)) : Obj :=
  l.foldl (fun o p => setKey o p.1 p.2) []

/-- Two-object spread as in braces-dot-dot-dot notation: every property of
    the second object is assigned onto a copy of the first. -/
def spread2 (a b : Obj) : Obj :=
  b.foldl (fun o p => setKey o p.1 p.2) a

/-- A framework response: numeric status, explicitly-set headers, body
    text (source: the web Response objects constructed by the code). -/
structure Response where
  status : Nat
  headers : List (String × String)
  body : String
deriving DecidableEq

/-- A zod schema, consumed purely through its safeParse capability:
    success carries the parsed (possibly coerced) data, failure carries
    the structured issue list. -/
structure Schema where
  safeParse : Value → Except (List Value) Value

/-- The parts of the incoming web Request the pipeline reads: method,
    the content-type header, the decoded search-parameter entries of the
    URL, and the results the body-reading promises would deliver.  A
    failing promise is an error value (for json() this is the SyntaxError
    of a malformed body, never the internal error class). -/
structure Request where
  method : String
  contentType : Option String
  searchParamsEntries : List (String × String)
  jsonBody : Except Value Value
  formDataEntries : Except Value (List (String × String))

/-- The second argument Next.js passes to a route handler: a
    possibly-absent, lazily resolved params bag whose promise may also
    reject. -/
structure RouteContext where
  params : Option (Except Value Value)

/-- A thrown JavaScript value, classified the way the catch clause of the
    source classifies it: an instance of InternalRouteHandlerError
    (carrying its message), or anything else. -/
inductive JsError where
  | internal : String → JsError
  | other : Value → JsError

/-- A middleware: receives the request and the accumulated context
    object, returns a context fragment or throws. -/
abbrev Middleware := Request → Obj → Except JsError Obj

/-- The schema slots of the builder configuration; an absent schema means
    the slot is not validated. -/
structure RouteHandlerBuilderConfig where
  paramsSchema : Option Schema := none
  querySchema : Option Schema := none
  bodySchema : Option Schema := none

/-- The builder state: schema configuration, middleware chain, optional
    custom server-error handler. -/
structure RouteHandlerBuilder where
  config : RouteHandlerBuilderConfig := {}
  middlewares : List Middleware := []
  handleServerError : Option (Value → Response) := none

/-- Chaining call params(schema): replace only the params slot. -/
def RouteHandlerBuilder.params (b : RouteHandlerBuilder) (s : Schema) : RouteHandlerBuilder :=
  { b with config := { b.config with paramsSchema := some s } }

/-- Chaining call query(schema): replace only the query slot. -/
def RouteHandlerBuilder.query (b : RouteHandlerBuilder) (s : Schema) : RouteHandlerBuilder :=
  { b with config := { b.config with querySchema := some s } }

/-- Chaining call body(schema): replace only the body slot. -/
def RouteHandlerBuilder.body (b : RouteHandlerBuilder) (s : Schema) : RouteHandlerBuilder :=
  { b with config := { b.config with bodySchema := some s } }

/-- Chaining call use(middleware): append to the middleware chain. -/
def RouteHandlerBuilder.use (b : RouteHandlerBuilder) (m : Middleware) : RouteHandlerBuilder :=
  { b with middlewares := b.middlewares ++ [m] }

/-- What a user handler returns: a ready framework response, or a plain
    value to be wrapped. -/
inductive HandlerResult where
  | resp : Response → HandlerResult
  | val : Value → HandlerResult

/-- The context delivered to the user handler. -/
structure HandlerContext where
  params : Value
  query : Value
  body : Value
  data : Obj

/-- The user handler: may also throw. -/
abbrev HandlerFunction := Request → HandlerContext → Except JsError HandlerResult

/-- Resolution of the route-context params bag (line 122 of the source):
    absent params default to the empty object, a rejecting promise
    propagates its error. -/
def resolveParams (rctx : RouteContext) : Except Value Value :=
  match rctx.params with
  | none => Except.ok (Value.obj [])
  | some (Except.ok v) => Except.ok v
  | some (Except.error e) => Except.error e

/-- Query extraction (line 123): Object.fromEntries over the search
    parameters, values as strings. -/
def extractQuery (req : Request) : Value :=
  Value.obj (fromEntries (req.searchParamsEntries.map (fun p => (p.1, Value.str p.2))))

/-- Boolean test that one character list starts with another. -/
def listStartsWith : List Char → List Char → Bool
  | [], _ => true
  | _ :: _, [] => false
  | a :: as, b :: bs => a == b && listStartsWith as bs

/-- Boolean test that the pattern occurs somewhere in the list. -/
def listOccursIn (pat : List Char) : List Char → Bool
  | [] => listStartsWith pat []
  | c :: rest => listStartsWith pat (c :: rest) || listOccursIn pat rest

/-- String.prototype.includes. -/
def strIncludes (s pat : String) : Bool :=
  listOccursIn pat.toList s.toList

/-- The content-type test of lines 129-132 of the source. -/
def isFormContentType (ct : String) : Bool :=
  strIncludes ct "multipart/form-data" || strIncludes ct "application/x-www-form-urlencoded"

/-- Form-data branch of body parsing (lines 133-134): flatten the form
    entries into an object; a failing formData() promise propagates. -/
def formResult (req : Request) : Except Value Value :=
  match req.formDataEntries with
  | Except.ok l => Except.ok (Value.obj (fromEntries (l.map (fun p => (p.1, Value.str p.2)))))
  | Except.error e => Except.error e

/-- JSON branch of body parsing (line 136): the json() promise result. -/
def jsonResult (req : Request) : Except Value Value :=
  req.jsonBody

/-- Body parsing (lines 125-138): skipped for GET and DELETE, leaving the
    initial empty object; otherwise dispatched on the content-type header
    (absent header behaves as the empty string). -/
def parseBody (req : Request) : Except Value Value :=
  if req.method != "GET" && req.method != "DELETE" then
    if isFormContentType ((req.contentType).getD "") then formResult req
    else jsonResult req
  else Except.ok (Value.obj [])

/-- The JSON text carried by an InternalRouteHandlerError for a failing
    slot (lines 144-146, 155-157, 166-168). -/
def validationMessage (slot : String) (issues : List Value) : String :=
  Value.stringify (Value.obj
    [("message", Value.str ("Invalid " ++ slot)), ("errors", Value.arr issues)])

/-- Validation of one slot (each of the three blocks at lines 141-171):
    no schema passes the value through, a present schema replaces the
    value by its parsed output or throws the internal error with the
    slot-specific message. -/
def checkSlot (schema : Option Schema) (slot : String) (v : Value) : Except JsError Value :=
  match schema with
  | none => Except.ok v
  | some s =>
    match s.safeParse v with
    | Except.ok d => Except.ok d
    | Except.error issues => Except.error (JsError.internal (validationMessage slot issues))

/-- Sequential middleware execution with shallow merge (lines 173-181). -/
def runMiddlewares (req : Request) : List Middleware → Obj → Except JsError Obj
  | [], ctx => Except.ok ctx
  | m :: rest, ctx =>
    match m req ctx with
    | Except.ok r => runMiddlewares req rest (spread2 ctx r)
    | Except.error e => Except.error e

/-- Response normalization (lines 191-197): a Response is returned
    verbatim, anything else is JSON-serialized at status 200. -/
def normalizeResult : HandlerResult → Response
  | HandlerResult.resp r => r
  | HandlerResult.val v =>
      ⟨200, [("Content-Type", "application/json")], Value.stringify v⟩

/-- The default 500 response of line 207. -/
def internalServerErrorResponse : Response :=
  ⟨500, [], Value.stringify (Value.obj [("message", Value.str "Internal server error")])⟩

/-- The catch clause (lines 198-208): an internal error becomes a bare
    400 response carrying its message; any other error goes to the custom
    handler when configured, else to the default 500 response. -/
def mapError (b : RouteHandlerBuilder) : JsError → Response
  | JsError.internal msg => ⟨400, [], msg⟩
  | JsError.other e =>
    match b.handleServerError with
    | some f => f e
    | none => internalServerErrorResponse

/-- The try block of the produced route handler (lines 120-197), with
    each stage able to short-circuit by throwing. -/
def runRouteAux (b : RouteHandlerBuilder) (h : HandlerFunction) (req : Request)
    (rctx : RouteContext) : Except JsError Response :=
  match resolveParams rctx with
  | Except.error e => Except.error (JsError.other e)
  | Except.ok params0 =>
    match parseBody req with
    | Except.error e => Except.error (JsError.other e)
    | Except.ok body0 =>
      match checkSlot b.config.paramsSchema "params" params0 with
      | Except.error e => Except.error e
      | Except.ok params1 =>
        match checkSlot b.config.querySchema "query" (extractQuery req) with
        | Except.error e => Except.error e
        | Except.ok query1 =>
          match checkSlot b.config.bodySchema "body" body0 with
          | Except.error e => Except.error e
          | Except.ok body1 =>
            match runMiddlewares req b.middlewares [] with
            | Except.error e => Except.error e
            | Except.ok data =>
              match h req ⟨params1, query1, body1, data⟩ with
              | Except.error e => Except.error e
              | Except.ok result => Except.ok (normalizeResult result)

/-- The terminal handler(...) call (lines 118-210): run the try block and
    map a thrown error through the catch clause. -/
def RouteHandlerBuilder.handler (b : RouteHandlerBuilder) (h : HandlerFunction)
    (req : Request) (rctx : RouteContext) : Response :=
  match runRouteAux b h req rctx with
  | Except.ok resp => resp
  | Except.error e => mapError b e

/-! Concrete fixtures used by witnesses and counterexamples. -/

/-- A middleware contributing the fragment with x mapped to 1. -/
def mwA : Middleware := fun _ _ => Except.ok [("x", Value.num 1)]

/-- A middleware contributing the fragment with x mapped to 2 and y to 3. -/
def mwB : Middleware := fun _ _ => Except.ok [("x", Value.num 2), ("y", Value.num 3)]

/-- A handler returning a plain value. -/
def anyHandler : HandlerFunction := fun _ _ => Except.ok (HandlerResult.val (Value.str "unused"))

/-- A route context with no params bag. -/
def emptyRouteContext : RouteContext := ⟨none⟩

/-- A GET request carrying an unparsable JSON payload. -/
def getRequest : Request :=
  ⟨"GET", some "application/json", [("a", "1")], Except.error (Value.str "SyntaxError"), Except.ok []⟩

/-- A POST request with a well-formed JSON body. -/
def postRequest : Request :=
  ⟨"POST", none, [], Except.ok (Value.obj [("field", Value.str "v")]), Except.ok []⟩

/-- A POST request whose json() promise rejects. -/
def badJsonRequest : Request :=
  ⟨"POST", none, [], Except.error (Value.str "SyntaxError"), Except.ok []⟩

/-- A POST request carrying url-encoded form data. -/
def formPostRequest : Request :=
  ⟨"POST", some "application/x-www-form-urlencoded", [],
   Except.error (Value.str "nojson"), Except.ok [("field", "test-field")]⟩

/-- A schema rejecting every value with one issue. -/
def rejectSchema : Schema := ⟨fun _ => Except.error [Value.str "issue"]⟩

/-- A schema accepting every value unchanged. -/
def acceptSchema : Schema := ⟨fun v => Except.ok v⟩

/-- A schema whose parsed output differs from the raw input. -/
def parsedSchema : Schema := ⟨fun _ => Except.ok (Value.str "parsed")⟩

/-- A custom error handler producing a recognizable response. -/
def customErrorHandler : Value → Response := fun _ => ⟨512, [], "custom"⟩

/-- A builder with no schemas, no middleware, no custom error handler. -/
def plainBuilder : RouteHandlerBuilder := {}

/-! Helper lemmas. -/

/-- Running a concatenated middleware chain is running the first part and
    continuing from its accumulated context. -/
theorem runMiddlewares_append (req : Request) (mws1 mws2 : List Middleware) (ctx : Obj) :
    runMiddlewares req (mws1 ++ mws2) ctx =
      Except.bind (runMiddlewares req mws1 ctx) (fun c => runMiddlewares req mws2 c) := by
  induction mws1 generalizing ctx with
  | nil => rfl
  | cons m rest ih =>
    simp only [List.cons_append, runMiddlewares]
    cases hm : m req ctx with
    | ok r =>
      simp only [List.append_eq]
      rw [ih]
    | error e => rfl

/-! Claim theorems. -/

/-- C1: validation runs params, query, body in this fixed order, each slot
    only when configured; whenever the params schema rejects the resolved
    params value (on a request whose extraction stage succeeds), the
    response is exactly status 400 with the Invalid params body, whatever
    the query or body schemas would say, and since the conclusion does not
    depend on the query schema, the body schema, the middleware chain or
    the user handler, the pipeline abort skips all of them. -/
theorem params_reject_gives_invalid_params
    (b : RouteHandlerBuilder) (h : HandlerFunction) (req : Request) (rctx : RouteContext)
    (p bv : Value) (s : Schema) (issues : List Value)
    (hp : resolveParams rctx = Except.ok p)
    (hb : parseBody req = Except.ok bv)
    (hs : b.config.paramsSchema = some s)
    (hf : s.safeParse p = Except.error issues) :
    RouteHandlerBuilder.handler b h req rctx = ⟨400, [], validationMessage "params" issues⟩ := by
  unfold RouteHandlerBuilder.handler runRouteAux
  simp only [hp, hb, hs, checkSlot, hf, mapError]

/-- C1 witness: a concrete builder whose params schema rejects, together
    with a passing query schema, a passing body schema, a middleware and a
    custom error handler, yields the Invalid params response. -/
theorem params_reject_gives_invalid_params_witness :
    RouteHandlerBuilder.handler
      { config := { paramsSchema := some rejectSchema, querySchema := some acceptSchema,
                    bodySchema := some acceptSchema },
        middlewares := [mwA], handleServerError := some customErrorHandler }
      anyHandler getRequest emptyRouteContext =
      ⟨400, [], validationMessage "params" [Value.str "issue"]⟩ :=
  params_reject_gives_invalid_params
    { config := { paramsSchema := some rejectSchema, querySchema := some acceptSchema,
                  bodySchema := some acceptSchema },
      middlewares := [mwA], handleServerError := some customErrorHandler }
    anyHandler getRequest emptyRouteContext
    (Value.obj []) (Value.obj []) rejectSchema [Value.str "issue"] rfl rfl rfl rfl

/-- C2: whichever slot fails first, the response is status 400 whose body
    is exactly the JSON serialization of the object with the
    slot-specific Invalid message followed by the issue list, and the
    response is the same for every configured custom error handler (eh
    ranges over all choices, including none), so a validation failure is
    never passed to the custom handler. -/
theorem validation_failure_response_shape
    (b : RouteHandlerBuilder) (h : HandlerFunction) (req : Request) (rctx : RouteContext)
    (p bv : Value)
    (hp : resolveParams rctx = Except.ok p)
    (hb : parseBody req = Except.ok bv) :
    (∀ (s : Schema) (issues : List Value) (eh : Option (Value → Response)),
        b.config.paramsSchema = some s → s.safeParse p = Except.error issues →
        RouteHandlerBuilder.handler { b with handleServerError := eh } h req rctx =
          ⟨400, [], Value.stringify (Value.obj
            [("message", Value.str "Invalid params"), ("errors", Value.arr issues)])⟩)
    ∧ (∀ (p1 : Value) (s : Schema) (issues : List Value) (eh : Option (Value → Response)),
        checkSlot b.config.paramsSchema "params" p = Except.ok p1 →
        b.config.querySchema = some s →
        s.safeParse (extractQuery req) = Except.error issues →
        RouteHandlerBuilder.handler { b with handleServerError := eh } h req rctx =
          ⟨400, [], Value.stringify (Value.obj
            [("message", Value.str "Invalid query"), ("errors", Value.arr issues)])⟩)
    ∧ (∀ (p1 q1 : Value) (s : Schema) (issues : List Value) (eh : Option (Value → Response)),
        checkSlot b.config.paramsSchema "params" p = Except.ok p1 →
        checkSlot b.config.querySchema "query" (extractQuery req) = Except.ok q1 →
        b.config.bodySchema = some s → s.safeParse bv = Except.error issues →
        RouteHandlerBuilder.handler { b with handleServerError := eh } h req rctx =
          ⟨400, [], Value.stringify (Value.obj
            [("message", Value.str "Invalid body"), ("errors", Value.arr issues)])⟩) := by
  refine ⟨?_, ?_, ?_⟩
  · intro s issues eh hs hf
    unfold RouteHandlerBuilder.handler runRouteAux
    simp only [hp, hb, hs, checkSlot, hf, mapError, validationMessage]
    rfl
  · intro p1 s issues eh hok hs hf
    unfold RouteHandlerBuilder.handler runRouteAux
    simp only [hp, hb, hok]
    simp only [checkSlot, hs, hf, mapError, validationMessage]
    rfl
  · intro p1 q1 s issues eh hok1 hok2 hs hf
    unfold RouteHandlerBuilder.handler runRouteAux
    simp only [hp, hb, hok1, hok2]
    simp only [checkSlot, hs, hf, mapError, validationMessage]
    rfl

/-- C2 witness: a builder validating only the query with an
    always-rejecting schema produces exactly the serialized Invalid query
    object at status 400. -/
theorem validation_failure_response_shape_witness :
    RouteHandlerBuilder.handler
      { ({ config := { querySchema := some rejectSchema } } : RouteHandlerBuilder) with
        handleServerError := some customErrorHandler }
      anyHandler getRequest emptyRouteContext =
      ⟨400, [], Value.stringify (Value.obj
        [("message", Value.str "Invalid query"),
         ("errors", Value.arr [Value.str "issue"])])⟩ :=
  (validation_failure_response_shape
      { config := { querySchema := some rejectSchema } }
      anyHandler getRequest emptyRouteContext (Value.obj []) (Value.obj [])
      rfl rfl).2.1
    (Value.obj []) rejectSchema [Value.str "issue"] (some customErrorHandler) rfl rfl rfl

/-- A user handler that throws an instance of the internal
    validation-error class with message boom. -/
def internalThrowingHandler : HandlerFunction :=
  fun _ _ => Except.error (JsError.internal "boom")

/-- A builder configured with the recognizable custom error handler. -/
def customErrorBuilder : RouteHandlerBuilder := { handleServerError := some customErrorHandler }

/-- C3 counterexample: the user handler throws an instance of the
    internal validation-error class while a custom error handler is
    configured; the custom handler (which would answer status 512 with
    body custom) is not invoked — the catch clause classifies the error
    by instanceof and answers 400 with the raw message instead. -/
theorem internal_error_from_handler_bypasses_custom_handler :
    RouteHandlerBuilder.handler customErrorBuilder internalThrowingHandler getRequest
        emptyRouteContext = ⟨400, [], "boom"⟩ ∧
    RouteHandlerBuilder.handler customErrorBuilder internalThrowingHandler getRequest
        emptyRouteContext ≠ customErrorHandler (Value.str "boom") := by
  exact ⟨rfl, by decide⟩

/-- C3 amended: for every non-validation failure whose thrown value is
    not an instance of the internal validation-error class — which covers
    every params-resolution failure and every body-parse failure, and a
    middleware or user handler throwing any non-internal value — the
    configured custom error handler receives the raw thrown error and its
    response is returned unmodified, and without a custom handler the
    response is exactly the default 500 Internal server error. -/
theorem generic_failure_routing :
    (∀ (b : RouteHandlerBuilder) (h : HandlerFunction) (req : Request) (rctx : RouteContext)
        (e : Value) (f : Value → Response),
        runRouteAux b h req rctx = Except.error (JsError.other e) →
        RouteHandlerBuilder.handler { b with handleServerError := some f } h req rctx = f e ∧
        RouteHandlerBuilder.handler { b with handleServerError := none } h req rctx =
          internalServerErrorResponse)
    ∧ (∀ (b : RouteHandlerBuilder) (h : HandlerFunction) (req : Request) (rctx : RouteContext)
        (p e : Value),
        resolveParams rctx = Except.ok p → parseBody req = Except.error e →
        runRouteAux b h req rctx = Except.error (JsError.other e))
    ∧ (∀ (b : RouteHandlerBuilder) (req : Request) (rctx : RouteContext)
        (p bv p1 q1 b1 : Value) (data : Obj) (e : Value) (h : HandlerFunction),
        resolveParams rctx = Except.ok p → parseBody req = Except.ok bv →
        checkSlot b.config.paramsSchema "params" p = Except.ok p1 →
        checkSlot b.config.querySchema "query" (extractQuery req) = Except.ok q1 →
        checkSlot b.config.bodySchema "body" bv = Except.ok b1 →
        runMiddlewares req b.middlewares [] = Except.ok data →
        h req ⟨p1, q1, b1, data⟩ = Except.error (JsError.other e) →
        runRouteAux b h req rctx = Except.error (JsError.other e)) := by
  refine ⟨?_, ?_, ?_⟩
  · intro b h req rctx e f haux
    have haux1 : runRouteAux { b with handleServerError := some f } h req rctx =
        Except.error (JsError.other e) := haux
    have haux2 : runRouteAux { b with handleServerError := none } h req rctx =
        Except.error (JsError.other e) := haux
    constructor
    · unfold RouteHandlerBuilder.handler
      simp only [haux1, mapError]
    · unfold RouteHandlerBuilder.handler
      simp only [haux2, mapError]
  · intro b h req rctx p e hp hb
    unfold runRouteAux
    simp only [hp, hb]
  · intro b req rctx p bv p1 q1 b1 data e h hp hb hok1 hok2 hok3 hmw hh
    unfold runRouteAux
    simp only [hp, hb, hok1, hok2, hok3, hmw, hh]

/-- C3 witness: a POST request whose json() promise rejects, with no
    custom handler configured, yields exactly the default 500 response. -/
theorem generic_failure_routing_witness :
    RouteHandlerBuilder.handler { plainBuilder with handleServerError := none }
        anyHandler badJsonRequest emptyRouteContext = internalServerErrorResponse :=
  (generic_failure_routing.1 plainBuilder anyHandler badJsonRequest emptyRouteContext
      (Value.str "SyntaxError") customErrorHandler rfl).2

/-- C4: when extraction succeeds, every configured schema accepts, and
    all middleware succeed, the pipeline is exactly the user handler
    applied to the checked slot values followed by normalization — and
    the checked value of a slot is the raw extracted value when the slot
    has no schema, and the parsed output of the schema when it has one. -/
theorem success_path_delivers_parsed_values :
    (∀ (b : RouteHandlerBuilder) (req : Request) (rctx : RouteContext)
        (p bv p1 q1 b1 : Value) (data : Obj) (h : HandlerFunction),
        resolveParams rctx = Except.ok p → parseBody req = Except.ok bv →
        checkSlot b.config.paramsSchema "params" p = Except.ok p1 →
        checkSlot b.config.querySchema "query" (extractQuery req) = Except.ok q1 →
        checkSlot b.config.bodySchema "body" bv = Except.ok b1 →
        runMiddlewares req b.middlewares [] = Except.ok data →
        RouteHandlerBuilder.handler b h req rctx =
          (match h req ⟨p1, q1, b1, data⟩ with
           | Except.ok r => normalizeResult r
           | Except.error e => mapError b e))
    ∧ (∀ (slot : String) (v : Value), checkSlot none slot v = Except.ok v)
    ∧ (∀ (s : Schema) (slot : String) (v d : Value),
        s.safeParse v = Except.ok d → checkSlot (some s) slot v = Except.ok d) := by
  refine ⟨?_, ?_, ?_⟩
  · intro b req rctx p bv p1 q1 b1 data h hp hb hok1 hok2 hok3 hmw
    unfold RouteHandlerBuilder.handler runRouteAux
    simp only [hp, hb, hok1, hok2, hok3, hmw]
    cases hh : h req ⟨p1, q1, b1, data⟩ with
    | ok r => simp only [hh]
    | error e => simp only [hh]
  · intro slot v
    rfl
  · intro s slot v d hsp
    simp only [checkSlot, hsp]

/-- C4 witness: with a params schema whose parsed output is the constant
    string parsed and no other schemas, a POST request delivers the
    parsed params, the raw query and body, and the middleware data to the
    handler. -/
theorem success_path_delivers_parsed_values_witness :
    RouteHandlerBuilder.handler
        { config := { paramsSchema := some parsedSchema }, middlewares := [mwA] }
        anyHandler postRequest emptyRouteContext =
      (match anyHandler postRequest
          ⟨Value.str "parsed", Value.obj [], Value.obj [("field", Value.str "v")],
           [("x", Value.num 1)]⟩ with
       | Except.ok r => normalizeResult r
       | Except.error e =>
           mapError { config := { paramsSchema := some parsedSchema },
                      middlewares := [mwA] } e) :=
  success_path_delivers_parsed_values.1
    { config := { paramsSchema := some parsedSchema }, middlewares := [mwA] }
    postRequest emptyRouteContext (Value.obj []) (Value.obj [("field", Value.str "v")])
    (Value.str "parsed") (Value.obj []) (Value.obj [("field", Value.str "v")])
    [("x", Value.num 1)] anyHandler rfl rfl rfl rfl rfl rfl

/-- C5: middleware run strictly sequentially — on any split of the chain,
    the middleware after the first segment receives exactly the context
    accumulated by that segment, its fragment is spread-merged onto that
    context before the rest of the chain runs — and the concrete
    collision example: a middleware returning x maps to 1 followed by one
    returning x maps to 2 and y maps to 3 ends with data x maps to 2 and
    y maps to 3, the later fragment winning on x. -/
theorem middleware_sequential_merge :
    (∀ (req : Request) (mws1 : List Middleware) (m : Middleware) (mws2 : List Middleware)
        (ctx : Obj),
        runMiddlewares req (mws1 ++ m :: mws2) ctx =
          Except.bind (runMiddlewares req mws1 ctx)
            (fun c => Except.bind (m req c) (fun r => runMiddlewares req mws2 (spread2 c r))))
    ∧ (∀ req : Request,
        runMiddlewares req [mwA, mwB] [] =
          Except.ok [("x", Value.num 2), ("y", Value.num 3)]) := by
  constructor
  · intro req mws1 m mws2 ctx
    rw [runMiddlewares_append]
    cases runMiddlewares req mws1 ctx with
    | ok c =>
      simp only [Except.bind]
      cases hm : m req c with
      | ok r => simp only [runMiddlewares, hm, Except.bind]
      | error e => simp only [runMiddlewares, hm, Except.bind]
    | error e => simp only [Except.bind]
  · intro req
    rfl

/-- C6: body parsing is skipped exactly for GET and DELETE — for these
    the body value is the empty object whatever the payloads would
    deliver, even failing ones — and for every other method the
    content-type header (absent behaving as empty) selects form parsing
    when it contains one of the two form markers and JSON parsing
    otherwise. -/
theorem body_parsing_method_and_content_type :
    (∀ (ct : Option String) (qe : List (String × String)) (jb : Except Value Value)
        (fd : Except Value (List (String × String))),
        parseBody ⟨"GET", ct, qe, jb, fd⟩ = Except.ok (Value.obj []) ∧
        parseBody ⟨"DELETE", ct, qe, jb, fd⟩ = Except.ok (Value.obj []))
    ∧ (∀ req : Request, req.method ≠ "GET" → req.method ≠ "DELETE" →
        (isFormContentType ((req.contentType).getD "") = true →
          parseBody req = formResult req) ∧
        (isFormContentType ((req.contentType).getD "") = false →
          parseBody req = jsonResult req) ∧
        (req.contentType = none → parseBody req = jsonResult req)) := by
  constructor
  · intro ct qe jb fd
    exact ⟨rfl, rfl⟩
  · intro req hg hd
    have hcond : (req.method != "GET" && req.method != "DELETE") = true := by
      simp [hg, hd]
    have hempty : isFormContentType "" = false := rfl
    refine ⟨?_, ?_, ?_⟩
    · intro hct
      simp [parseBody, hcond, hct]
    · intro hct
      simp [parseBody, hcond, hct]
    · intro hnone
      simp [parseBody, hcond, hnone, hempty]

/-- C6 witness: a POST with the url-encoded content type takes the form
    branch; the GET request with an unparsable JSON payload still
    parses to the empty object. -/
theorem body_parsing_method_and_content_type_witness :
    parseBody formPostRequest = formResult formPostRequest ∧
    parseBody getRequest = Except.ok (Value.obj []) :=
  ⟨((body_parsing_method_and_content_type.2 formPostRequest (by decide) (by decide)).1
      (by decide)),
   ((body_parsing_method_and_content_type.1 (some "application/json") [("a", "1")]
      (Except.error (Value.str "SyntaxError")) (Except.ok [])).1)⟩

/-- C7: when the pipeline reaches the user handler, a handler returning a
    framework response has that response returned verbatim, and a handler
    returning a plain value gets it JSON-serialized at status 200 with
    the application/json content type. -/
theorem response_passthrough_and_wrapping
    (b : RouteHandlerBuilder) (req : Request) (rctx : RouteContext)
    (p bv p1 q1 b1 : Value) (data : Obj) (r : Response) (v : Value)
    (hp : resolveParams rctx = Except.ok p)
    (hb : parseBody req = Except.ok bv)
    (hok1 : checkSlot b.config.paramsSchema "params" p = Except.ok p1)
    (hok2 : checkSlot b.config.querySchema "query" (extractQuery req) = Except.ok q1)
    (hok3 : checkSlot b.config.bodySchema "body" bv = Except.ok b1)
    (hmw : runMiddlewares req b.middlewares [] = Except.ok data) :
    RouteHandlerBuilder.handler b (fun _ _ => Except.ok (HandlerResult.resp r)) req rctx = r ∧
    RouteHandlerBuilder.handler b (fun _ _ => Except.ok (HandlerResult.val v)) req rctx =
      ⟨200, [("Content-Type", "application/json")], Value.stringify v⟩ := by
  constructor
  · unfold RouteHandlerBuilder.handler runRouteAux
    simp only [hp, hb, hok1, hok2, hok3, hmw, normalizeResult]
  · unfold RouteHandlerBuilder.handler runRouteAux
    simp only [hp, hb, hok1, hok2, hok3, hmw, normalizeResult]

/-- A response a handler might return directly: status 201 and a custom
    header. -/
def customResponse : Response := ⟨201, [("X-Custom-Header", "test")], "custom-body"⟩

/-- C7 witness: on a schema-free builder and a POST request, a handler
    returning the 201 response gets it back verbatim, and a handler
    returning a plain object gets the JSON wrapping at status 200. -/
theorem response_passthrough_and_wrapping_witness :
    RouteHandlerBuilder.handler plainBuilder
        (fun _ _ => Except.ok (HandlerResult.resp customResponse)) postRequest
        emptyRouteContext = customResponse ∧
    RouteHandlerBuilder.handler plainBuilder
        (fun _ _ => Except.ok (HandlerResult.val (Value.obj [("data", Value.str "value")])))
        postRequest emptyRouteContext =
      ⟨200, [("Content-Type", "application/json")],
       Value.stringify (Value.obj [("data", Value.str "value")])⟩ :=
  response_passthrough_and_wrapping plainBuilder postRequest emptyRouteContext
    (Value.obj []) (Value.obj [("field", Value.str "v")]) (Value.obj []) (Value.obj [])
    (Value.obj [("field", Value.str "v")]) [] customResponse
    (Value.obj [("data", Value.str "value")]) rfl rfl rfl rfl rfl rfl

/-- C8: each chaining call produces a builder value in which only the
    targeted piece of state differs — params, query and body replace
    exactly their own schema slot, use appends exactly one middleware —
    and every other piece of state (both other schema slots, the
    middleware chain, the custom error handler) is carried over
    unchanged; the original builder value itself is untouched, the
    embedding being purely functional like the copy-on-write source. -/
theorem builder_chaining_frame (b : RouteHandlerBuilder) (s : Schema) (m : Middleware) :
    ((b.params s).config.paramsSchema = some s ∧
     (b.params s).config.querySchema = b.config.querySchema ∧
     (b.params s).config.bodySchema = b.config.bodySchema ∧
     (b.params s).middlewares = b.middlewares ∧
     (b.params s).handleServerError = b.handleServerError)
    ∧ ((b.query s).config.querySchema = some s ∧
       (b.query s).config.paramsSchema = b.config.paramsSchema ∧
       (b.query s).config.bodySchema = b.config.bodySchema ∧
       (b.query s).middlewares = b.middlewares ∧
       (b.query s).handleServerError = b.handleServerError)
    ∧ ((b.body s).config.bodySchema = some s ∧
       (b.body s).config.paramsSchema = b.config.paramsSchema ∧
       (b.body s).config.querySchema = b.config.querySchema ∧
       (b.body s).middlewares = b.middlewares ∧
       (b.body s).handleServerError = b.handleServerError)
    ∧ ((b.use m).middlewares = b.middlewares ++ [m] ∧
       (b.use m).config = b.config ∧
       (b.use m).handleServerError = b.handleServerError) :=
  ⟨⟨rfl, rfl, rfl, rfl, rfl⟩, ⟨rfl, rfl, rfl, rfl, rfl⟩,
   ⟨rfl, rfl, rfl, rfl, rfl⟩, ⟨rfl, rfl, rfl⟩⟩

/-- A middleware throwing an instance of the internal validation-error
    class. -/
def internalThrowingMiddleware : Middleware :=
  fun _ _ => Except.error (JsError.internal "mw-boom")

/-- A builder whose only middleware throws the internal error class,
    with a custom error handler configured. -/
def internalMiddlewareBuilder : RouteHandlerBuilder :=
  { middlewares := [internalThrowingMiddleware], handleServerError := some customErrorHandler }

/-- C9 counterexample: a middleware that throws an instance of the
    internal validation-error class is handled by the validation branch
    of the catch clause — the response is 400 with the raw message and
    the configured custom error handler (status 512) is bypassed, so the
    exception is treated as a validation error. -/
theorem internal_error_from_middleware_treated_as_validation :
    RouteHandlerBuilder.handler internalMiddlewareBuilder anyHandler getRequest
        emptyRouteContext = ⟨400, [], "mw-boom"⟩ ∧
    RouteHandlerBuilder.handler internalMiddlewareBuilder anyHandler getRequest
        emptyRouteContext ≠ customErrorHandler (Value.str "mw-boom") := by
  exact ⟨rfl, by decide⟩

/-- C9 amended: any exception raised by a middleware aborts the pipeline
    — the response does not depend on the later middleware or on the
    user handler, both universally quantified and absent from the
    conclusion, so no partial context reaches the handler — and the
    exception goes to generic error handling (custom handler or default
    500) unless the thrown value is an instance of the internal
    validation-error class, in which case the catch clause answers 400
    with its message. -/
theorem middleware_failure_aborts_pipeline
    (b : RouteHandlerBuilder) (h : HandlerFunction) (req : Request) (rctx : RouteContext)
    (p bv p1 q1 b1 : Value) (mws1 mws2 : List Middleware) (m : Middleware) (ctx : Obj)
    (hp : resolveParams rctx = Except.ok p)
    (hb : parseBody req = Except.ok bv)
    (hok1 : checkSlot b.config.paramsSchema "params" p = Except.ok p1)
    (hok2 : checkSlot b.config.querySchema "query" (extractQuery req) = Except.ok q1)
    (hok3 : checkSlot b.config.bodySchema "body" bv = Except.ok b1)
    (hmw : runMiddlewares req mws1 [] = Except.ok ctx) :
    (∀ e : Value, m req ctx = Except.error (JsError.other e) →
        RouteHandlerBuilder.handler { b with middlewares := mws1 ++ m :: mws2 } h req rctx =
          mapError b (JsError.other e)) ∧
    (∀ msg : String, m req ctx = Except.error (JsError.internal msg) →
        RouteHandlerBuilder.handler { b with middlewares := mws1 ++ m :: mws2 } h req rctx =
          ⟨400, [], msg⟩) := by
  have hchain : ∀ e : JsError, m req ctx = Except.error e →
      runMiddlewares req (mws1 ++ m :: mws2) [] = Except.error e := by
    intro e hm
    rw [runMiddlewares_append, hmw]
    simp only [Except.bind, runMiddlewares, hm]
  constructor
  · intro e hm
    unfold RouteHandlerBuilder.handler runRouteAux
    simp only [hp, hb, hok1, hok2, hok3, hchain (JsError.other e) hm, mapError]
  · intro msg hm
    unfold RouteHandlerBuilder.handler runRouteAux
    simp only [hp, hb, hok1, hok2, hok3, hchain (JsError.internal msg) hm, mapError]

/-- A middleware throwing an ordinary (non-internal) value. -/
def otherThrowingMiddleware : Middleware :=
  fun _ _ => Except.error (JsError.other (Value.str "mw-err"))

/-- C9 witness: with one succeeding middleware before it and one after
    it, a middleware throwing an ordinary value sends the pipeline to the
    generic error path of the builder (here the configured custom
    handler). -/
theorem middleware_failure_aborts_pipeline_witness :
    RouteHandlerBuilder.handler
        { customErrorBuilder with middlewares := [mwA] ++ otherThrowingMiddleware :: [mwB] }
        anyHandler postRequest emptyRouteContext =
      mapError customErrorBuilder (JsError.other (Value.str "mw-err")) :=
  (middleware_failure_aborts_pipeline customErrorBuilder anyHandler postRequest
      emptyRouteContext (Value.obj []) (Value.obj [("field", Value.str "v")])
      (Value.obj []) (Value.obj []) (Value.obj [("field", Value.str "v")])
      [mwA] [mwB] otherThrowingMiddleware [("x", Value.num 1)]
      rfl rfl rfl rfl rfl rfl).1
    (Value.str "mw-err") rfl

/-- C10: on a GET or a DELETE request the value submitted to a configured
    body schema is the empty object whatever the request payload would
    have delivered, so a body schema rejecting the empty object turns
    every such request into a 400 Invalid body response even though body
    parsing was skipped. -/
theorem get_delete_empty_body_validation
    (b : RouteHandlerBuilder) (h : HandlerFunction) (rctx : RouteContext)
    (ct : Option String) (qe : List (String × String)) (jb : Except Value Value)
    (fd : Except Value (List (String × String)))
    (p p1 q1 : Value) (s : Schema) (issues : List Value)
    (hp : resolveParams rctx = Except.ok p)
    (hok1 : checkSlot b.config.paramsSchema "params" p = Except.ok p1)
    (hok2 : checkSlot b.config.querySchema "query"
        (extractQuery ⟨"GET", ct, qe, jb, fd⟩) = Except.ok q1)
    (hs : b.config.bodySchema = some s)
    (hf : s.safeParse (Value.obj []) = Except.error issues) :
    RouteHandlerBuilder.handler b h ⟨"GET", ct, qe, jb, fd⟩ rctx =
      ⟨400, [], validationMessage "body" issues⟩ ∧
    RouteHandlerBuilder.handler b h ⟨"DELETE", ct, qe, jb, fd⟩ rctx =
      ⟨400, [], validationMessage "body" issues⟩ := by
  have hbg : parseBody ⟨"GET", ct, qe, jb, fd⟩ = Except.ok (Value.obj []) := rfl
  have hbd : parseBody ⟨"DELETE", ct, qe, jb, fd⟩ = Except.ok (Value.obj []) := rfl
  have hq : checkSlot b.config.querySchema "query"
      (extractQuery ⟨"DELETE", ct, qe, jb, fd⟩) = Except.ok q1 := hok2
  constructor
  · unfold RouteHandlerBuilder.handler runRouteAux
    simp only [hp, hbg, hok1, hok2]
    simp only [checkSlot, hs, hf, mapError]
  · unfold RouteHandlerBuilder.handler runRouteAux
    simp only [hp, hbd, hok1, hq]
    simp only [checkSlot, hs, hf, mapError]

/-- C10 witness: a GET request carrying an unparsable JSON payload, a
    builder whose body schema rejects everything (in particular the empty
    object): the response is 400 Invalid body. -/
theorem get_delete_empty_body_validation_witness :
    RouteHandlerBuilder.handler { config := { bodySchema := some rejectSchema } }
        anyHandler ⟨"GET", some "application/json", [("a", "1")],
          Except.error (Value.str "SyntaxError"), Except.ok []⟩ emptyRouteContext =
      ⟨400, [], validationMessage "body" [Value.str "issue"]⟩ :=
  (get_delete_empty_body_validation { config := { bodySchema := some rejectSchema } }
      anyHandler emptyRouteContext (some "application/json") [("a", "1")]
      (Except.error (Value.str "SyntaxError")) (Except.ok [])
      (Value.obj []) (Value.obj []) (Value.obj [("a", Value.str "1")])
      rejectSchema [Value.str "issue"] rfl rfl rfl rfl rfl).1
